import Mathlib

/-!
# STM32F10x power controller (PWR) firmware interface

Shallow embedding of `tos/chips/stm32/fwlib/inc/stm32f10x_pwr.h`.

The header defines the encodings of the PVD detection levels, the regulator
states, the STOP entry mechanisms and the PWR flags, together with the
parameter-checking predicates `IS_PWR_*`.  Unsigned machine integers are
embedded as `Nat`; each `#define` constant keeps its name and value and each
predicate is the same chain of `==` / `||` as the C expression.
-/

namespace Pwr

/-! ## Exported constants (header lines 26-61) -/

/-- PVD detection level 2.2V: `((uint32_t)0x00000000)`. -/
def PWR_PVDLevel_2V2 : Nat := 0x00000000
/-- PVD detection level 2.3V: `((uint32_t)0x00000020)`. -/
def PWR_PVDLevel_2V3 : Nat := 0x00000020
/-- PVD detection level 2.4V: `((uint32_t)0x00000040)`. -/
def PWR_PVDLevel_2V4 : Nat := 0x00000040
/-- PVD detection level 2.5V: `((uint32_t)0x00000060)`. -/
def PWR_PVDLevel_2V5 : Nat := 0x00000060
/-- PVD detection level 2.6V: `((uint32_t)0x00000080)`. -/
def PWR_PVDLevel_2V6 : Nat := 0x00000080
/-- PVD detection level 2.7V: `((uint32_t)0x000000A0)`. -/
def PWR_PVDLevel_2V7 : Nat := 0x000000A0
/-- PVD detection level 2.8V: `((uint32_t)0x000000C0)`. -/
def PWR_PVDLevel_2V8 : Nat := 0x000000C0
/-- PVD detection level 2.9V: `((uint32_t)0x000000E0)`. -/
def PWR_PVDLevel_2V9 : Nat := 0x000000E0

/-- Parameter check for a PVD detection level (header lines 36-39). -/
def IS_PWR_PVD_LEVEL (LEVEL : Nat) : Bool :=
  (LEVEL == PWR_PVDLevel_2V2) || (LEVEL == PWR_PVDLevel_2V3) ||
  (LEVEL == PWR_PVDLevel_2V4) || (LEVEL == PWR_PVDLevel_2V5) ||
  (LEVEL == PWR_PVDLevel_2V6) || (LEVEL == PWR_PVDLevel_2V7) ||
  (LEVEL == PWR_PVDLevel_2V8) || (LEVEL == PWR_PVDLevel_2V9)

/-- Regulator ON in STOP mode: `((uint32_t)0x00000000)`. -/
def PWR_Regulator_ON : Nat := 0x00000000
/-- Regulator in low-power mode in STOP mode: `((uint32_t)0x00000001)`. -/
def PWR_Regulator_LowPower : Nat := 0x00000001

/-- Parameter check for a regulator state (header lines 45-46). -/
def IS_PWR_REGULATOR (REGULATOR : Nat) : Bool :=
  (REGULATOR == PWR_Regulator_ON) ||
  (REGULATOR == PWR_Regulator_LowPower)

/-- STOP mode entered with WFI: `((uint8_t)0x01)`. -/
def PWR_STOPEntry_WFI : Nat := 0x01
/-- STOP mode entered with WFE: `((uint8_t)0x02)`. -/
def PWR_STOPEntry_WFE : Nat := 0x02

/-- Parameter check for a STOP entry mechanism (header line 52). -/
def IS_PWR_STOP_ENTRY (ENTRY : Nat) : Bool :=
  (ENTRY == PWR_STOPEntry_WFI) || (ENTRY == PWR_STOPEntry_WFE)

/-- Wake-up flag: `((uint32_t)0x00000001)`. -/
def PWR_FLAG_WU : Nat := 0x00000001
/-- Standby flag: `((uint32_t)0x00000002)`. -/
def PWR_FLAG_SB : Nat := 0x00000002
/-- PVD output flag: `((uint32_t)0x00000004)`. -/
def PWR_FLAG_PVDO : Nat := 0x00000004

/-- Parameter check for a flag that is read (header lines 59-60), at an
argument that is a value: an identifier, a literal or a parenthesised
expression.  The macro does not parenthesise `FLAG`; its expansion at an
argument of the form `x | y` is `IS_PWR_GET_FLAG_or`. -/
def IS_PWR_GET_FLAG (FLAG : Nat) : Bool :=
  (FLAG == PWR_FLAG_WU) || (FLAG == PWR_FLAG_SB) ||
  (FLAG == PWR_FLAG_PVDO)

/-- Parameter check for a flag that is cleared (header line 61), at an
argument that is a value: an identifier, a literal or a parenthesised
expression.  The macro does not parenthesise `FLAG`; its expansion at an
argument of the form `x | y` is `IS_PWR_CLEAR_FLAG_or`. -/
def IS_PWR_CLEAR_FLAG (FLAG : Nat) : Bool :=
  (FLAG == PWR_FLAG_WU) || (FLAG == PWR_FLAG_SB)

/-! ## The flag checks at an argument that is an OR of flags

The macros of header lines 59-61 substitute `FLAG` without parentheses, and in
C `==` binds tighter than `|`.  With `x | y` for `FLAG`, each test
`(FLAG == K)` of the expansion is therefore `(x | y == K)`, which C reads as
`(x | (y == K))`; `x` may itself be an OR, `|` being left associative. -/

/-- Value of the C expression `a == b`: 1 when equal, 0 otherwise. -/
def cEq (a b : Nat) : Nat := if a = b then 1 else 0

/-- The expansion of `IS_PWR_GET_FLAG(x | y)` (header lines 59-60):
`((x | y == PWR_FLAG_WU) || (x | y == PWR_FLAG_SB) || (x | y == PWR_FLAG_PVDO))`,
each operand of `||` being true when it is not zero. -/
def IS_PWR_GET_FLAG_or (x y : Nat) : Bool :=
  ((x ||| cEq y PWR_FLAG_WU) != 0) || ((x ||| cEq y PWR_FLAG_SB) != 0) ||
  ((x ||| cEq y PWR_FLAG_PVDO) != 0)

/-- The expansion of `IS_PWR_CLEAR_FLAG(x | y)` (header line 61):
`((x | y == PWR_FLAG_WU) || (x | y == PWR_FLAG_SB))`, each operand of `||`
being true when it is not zero. -/
def IS_PWR_CLEAR_FLAG_or (x y : Nat) : Bool :=
  ((x ||| cEq y PWR_FLAG_WU) != 0) || ((x ||| cEq y PWR_FLAG_SB) != 0)

/-! ## Auxiliary notions used to state the properties -/

/-- Number of bits set among the 32 bit positions of a word. -/
def bitCount32 (v : Nat) : Nat :=
  ((List.range 32).filter (fun i => v.testBit i)).length

/-- The eight detection-level constants, in voltage order. -/
def DetectionLevels : List Nat :=
  [PWR_PVDLevel_2V2, PWR_PVDLevel_2V3, PWR_PVDLevel_2V4, PWR_PVDLevel_2V5,
   PWR_PVDLevel_2V6, PWR_PVDLevel_2V7, PWR_PVDLevel_2V8, PWR_PVDLevel_2V9]

/-! ## Device state and exported functions

The header only declares the exported functions (lines 65-73) and gives no
body for them.  The definitions of this section follow the specification of
the power controller. -/

/-- Modelled from the spec: the two error kinds of section 7 (no error type
exists in the header; the C functions return `void`). -/
inductive PwrError where
  | InvalidConfiguration
  | NotClearable
  deriving DecidableEq, Repr

/-- Modelled from the spec: the two CPU suspend instructions of section 4.1,
interrupt-wait and event-wait. -/
inductive Suspend where
  | WFI
  | WFE
  deriving DecidableEq, Repr

/-- Modelled from the spec: the state the power controller acts on (sections
2 and 6): the image of the control register `CR`, the image of the
control/status register `CSR`, the deep-sleep control bit of the CPU, and the
suspend instructions issued so far (oldest first). -/
structure Device where
  CR : Nat
  CSR : Nat
  SLEEPDEEP : Bool
  suspends : List Suspend
  deriving DecidableEq, Repr

/-- Modelled from the spec: LPDS, the regulator-select bit of the control
register.  Section 6 lists the control-register bits as LPDS, PDDS, CWUF,
CSBF, PVDE, PLS[2:0], DBP; taken from bit 0 upwards this puts LPDS on the
encoding of `PWR_Regulator_LowPower` and PLS on the bits of the detection
levels. -/
def CR_LPDS : Nat := 0x00000001
/-- Modelled from the spec: PDDS, the Stop/Standby select bit (section 6). -/
def CR_PDDS : Nat := 0x00000002
/-- Modelled from the spec: PVDE, the PVD enable bit (section 6). -/
def CR_PVDE : Nat := 0x00000010
/-- Modelled from the spec: PLS[2:0], the three-bit level field (section 6);
it is the field the eight level encodings `0x00 .. 0xE0` live in. -/
def CR_PLS : Nat := 0x000000E0
/-- Modelled from the spec: 32-bit complement of `CR_PLS`. -/
def CR_PLS_Mask : Nat := 0xFFFFFF1F
/-- Modelled from the spec: 32-bit complement of `CR_PDDS ||| CR_LPDS`. -/
def CR_DS_Mask : Nat := 0xFFFFFFFC

/-- Modelled from the spec: the internal read of the three-bit level field
(section 8), as the encoding the header gives the levels. -/
def readLevel (d : Device) : Nat := d.CR &&& CR_PLS

/-- Modelled from the spec: the body of `PWR_PVDLevelConfig` (declared at
header line 68, `void PWR_PVDLevelConfig(uint32_t PWR_PVDLevel)`), section 4.2:
"validates enumeration; fails with InvalidConfiguration otherwise.  Writes the
three-bit level field, leaving the enable bit untouched."  The argument is
taken at the width of its parameter type. -/
def PWR_PVDLevelConfig (d : Device) (PWR_PVDLevel : Nat) :
    Except PwrError Unit × Device :=
  let level := PWR_PVDLevel % 2 ^ 32
  if IS_PWR_PVD_LEVEL level then
    (.ok (), { d with CR := (d.CR &&& CR_PLS_Mask) ||| level })
  else
    (.error .InvalidConfiguration, d)

/-- Modelled from the spec: the body of `PWR_EnterSTOPMode` (declared at
header line 70, `void PWR_EnterSTOPMode(uint32_t PWR_Regulator, uint8_t
PWR_STOPEntry)`), section 4.1: "validates both arguments against their
enumerations; fails with InvalidConfiguration if either value is outside its
enumerated set.  On success, programs the regulator-selection bit and
unconditionally sets the power-down deep-sleep control bit, then issues the
CPU suspend instruction selected by entry."  Section 8 fixes the control
register after a successful call: PDDS cleared, LPDS as the regulator says;
the deep-sleep control bit that is set is therefore the one of the CPU, not
PDDS.  Each argument is taken at the width of its parameter type. -/
def PWR_EnterSTOPMode (d : Device) (PWR_Regulator PWR_STOPEntry : Nat) :
    Except PwrError Unit × Device :=
  let regulator := PWR_Regulator % 2 ^ 32
  let entry := PWR_STOPEntry % 2 ^ 8
  if IS_PWR_REGULATOR regulator && IS_PWR_STOP_ENTRY entry then
    (.ok (),
      { d with
        CR := (d.CR &&& CR_DS_Mask) ||| regulator
        SLEEPDEEP := true
        suspends := d.suspends ++
          [if entry == PWR_STOPEntry_WFI then Suspend.WFI else Suspend.WFE] })
  else
    (.error .InvalidConfiguration, d)

/-- Modelled from the spec: the body of `PWR_ClearFlag` (declared at header
line 73, `void PWR_ClearFlag(uint32_t PWR_FLAG)`), section 4.5: "fails with
NotClearable if flag == PVDOutput; otherwise clears the WakeUp or StandBy
latch", the clear being requested through the write-only bits CWUF / CSBF of
the control register, which leave no trace in its image.  A value that is none
of the three flags is outside the enumerated domain (section 7).  The argument
is taken at the width of its parameter type. -/
def PWR_ClearFlag (d : Device) (PWR_FLAG : Nat) :
    Except PwrError Unit × Device :=
  let flag := PWR_FLAG % 2 ^ 32
  if flag == PWR_FLAG_PVDO then
    (.error .NotClearable, d)
  else if IS_PWR_CLEAR_FLAG flag then
    (.ok (), { d with CSR := d.CSR &&& (0xFFFFFFFF ^^^ flag) })
  else
    (.error .InvalidConfiguration, d)

/-! ## Helper lemmas -/

/-- Membership in the list of level constants is what the parameter check
tests. -/
theorem mem_DetectionLevels_iff (v : Nat) :
    v ∈ DetectionLevels ↔ IS_PWR_PVD_LEVEL v = true := by
  simp [DetectionLevels, IS_PWR_PVD_LEVEL, PWR_PVDLevel_2V2, PWR_PVDLevel_2V3,
    PWR_PVDLevel_2V4, PWR_PVDLevel_2V5, PWR_PVDLevel_2V6, PWR_PVDLevel_2V7,
    PWR_PVDLevel_2V8, PWR_PVDLevel_2V9, or_assoc]

/-- Every level constant lies inside the level field, has no bit outside it
(in particular not the PVD enable bit) and fits in 32 bits. -/
theorem mem_DetectionLevels_and_PLS {v : Nat} (h : v ∈ DetectionLevels) :
    v &&& CR_PLS = v ∧ v &&& CR_PVDE = 0 ∧ v &&& CR_PLS_Mask = 0 ∧
      v < 2 ^ 32 := by
  simp only [DetectionLevels, PWR_PVDLevel_2V2, PWR_PVDLevel_2V3,
    PWR_PVDLevel_2V4, PWR_PVDLevel_2V5, PWR_PVDLevel_2V6, PWR_PVDLevel_2V7,
    PWR_PVDLevel_2V8, PWR_PVDLevel_2V9, List.mem_cons, List.mem_singleton,
    List.mem_nil_iff, or_false] at h
  rcases h with h | h | h | h | h | h | h | h <;> subst h <;> decide

/-- Writing a field: clearing the bits of a field and OR-ing in a value that
lies inside the field makes the field read back as that value. -/
theorem write_field_read (cr v : Nat) (h : v &&& CR_PLS = v) :
    ((cr &&& CR_PLS_Mask) ||| v) &&& CR_PLS = v := by
  have hm : CR_PLS_Mask &&& CR_PLS = 0 := by decide
  rw [Nat.and_distrib_right, Nat.and_assoc, hm, Nat.and_zero, Nat.zero_or, h]

/-- Writing the level field leaves the PVD enable bit as it was. -/
theorem write_field_PVDE (cr v : Nat) (h : v &&& CR_PVDE = 0) :
    ((cr &&& CR_PLS_Mask) ||| v) &&& CR_PVDE = cr &&& CR_PVDE := by
  have hm : CR_PLS_Mask &&& CR_PVDE = CR_PVDE := by decide
  rw [Nat.and_distrib_right, Nat.and_assoc, hm, h, Nat.or_zero]

/-- Writing the level field leaves every bit outside the field as it was. -/
theorem write_field_others (cr v : Nat) (h : v &&& CR_PLS_Mask = 0) :
    ((cr &&& CR_PLS_Mask) ||| v) &&& CR_PLS_Mask = cr &&& CR_PLS_Mask := by
  rw [Nat.and_distrib_right, Nat.and_assoc, Nat.and_self, h, Nat.or_zero]

/-! ## The parameter checks -/

/-- C1: for every unsigned value `v` (every natural number, so in particular
every 32-bit one), `IS_PWR_PVD_LEVEL v` holds if and only if `v` is one of the
eight encodings 0x00, 0x20, 0x40, 0x60, 0x80, 0xA0, 0xC0, 0xE0; every other
bit pattern is rejected. -/
theorem IS_PWR_PVD_LEVEL_iff (v : Nat) :
    (IS_PWR_PVD_LEVEL v = true ↔
      v = 0x00 ∨ v = 0x20 ∨ v = 0x40 ∨ v = 0x60 ∨
      v = 0x80 ∨ v = 0xA0 ∨ v = 0xC0 ∨ v = 0xE0) ∧
    (IS_PWR_PVD_LEVEL v = false ↔
      ¬ (v = 0x00 ∨ v = 0x20 ∨ v = 0x40 ∨ v = 0x60 ∨
         v = 0x80 ∨ v = 0xA0 ∨ v = 0xC0 ∨ v = 0xE0)) := by
  have h : IS_PWR_PVD_LEVEL v = true ↔
      v = 0x00 ∨ v = 0x20 ∨ v = 0x40 ∨ v = 0x60 ∨
      v = 0x80 ∨ v = 0xA0 ∨ v = 0xC0 ∨ v = 0xE0 := by
    simp [IS_PWR_PVD_LEVEL, PWR_PVDLevel_2V2, PWR_PVDLevel_2V3,
      PWR_PVDLevel_2V4, PWR_PVDLevel_2V5, PWR_PVDLevel_2V6, PWR_PVDLevel_2V7,
      PWR_PVDLevel_2V8, PWR_PVDLevel_2V9, or_assoc]
  refine ⟨h, ?_⟩
  rw [← h]
  cases IS_PWR_PVD_LEVEL v <;> simp

/-- C2: for every unsigned value `v`, `IS_PWR_CLEAR_FLAG v` holds if and only
if `v` is `PWR_FLAG_WU` (0x01) or `PWR_FLAG_SB` (0x02); in particular the
clear-flag check rejects `PWR_FLAG_PVDO`. -/
theorem IS_PWR_CLEAR_FLAG_iff (v : Nat) :
    (IS_PWR_CLEAR_FLAG v = true ↔ v = PWR_FLAG_WU ∨ v = PWR_FLAG_SB) ∧
    (IS_PWR_CLEAR_FLAG v = true ↔ v = 0x01 ∨ v = 0x02) ∧
    IS_PWR_CLEAR_FLAG PWR_FLAG_PVDO = false := by
  refine ⟨?_, ?_, by decide⟩ <;>
    simp [IS_PWR_CLEAR_FLAG, PWR_FLAG_WU, PWR_FLAG_SB]

/-- C3: for every unsigned value `v`, `IS_PWR_REGULATOR v` holds if and only
if `v` is `PWR_Regulator_ON` (0x00) or `PWR_Regulator_LowPower` (0x01), and
these two encodings are distinct. -/
theorem IS_PWR_REGULATOR_iff (v : Nat) :
    (IS_PWR_REGULATOR v = true ↔
      v = PWR_Regulator_ON ∨ v = PWR_Regulator_LowPower) ∧
    (IS_PWR_REGULATOR v = true ↔ v = 0x00 ∨ v = 0x01) ∧
    PWR_Regulator_ON ≠ PWR_Regulator_LowPower := by
  refine ⟨?_, ?_, by decide⟩ <;>
    simp [IS_PWR_REGULATOR, PWR_Regulator_ON, PWR_Regulator_LowPower]

/-- C4: for every unsigned value `e` (so in particular every 8-bit one),
`IS_PWR_STOP_ENTRY e` holds if and only if `e` is `PWR_STOPEntry_WFI` (0x01)
or `PWR_STOPEntry_WFE` (0x02); 0x00 and 0x03 are rejected. -/
theorem IS_PWR_STOP_ENTRY_iff (e : Nat) :
    (IS_PWR_STOP_ENTRY e = true ↔
      e = PWR_STOPEntry_WFI ∨ e = PWR_STOPEntry_WFE) ∧
    (IS_PWR_STOP_ENTRY e = true ↔ e = 0x01 ∨ e = 0x02) ∧
    IS_PWR_STOP_ENTRY 0x00 = false ∧ IS_PWR_STOP_ENTRY 0x03 = false := by
  refine ⟨?_, ?_, by decide, by decide⟩ <;>
    simp [IS_PWR_STOP_ENTRY, PWR_STOPEntry_WFI, PWR_STOPEntry_WFE]

/-- C5: for every unsigned value `v`, `IS_PWR_GET_FLAG v` holds if and only if
`v` is `PWR_FLAG_WU` (0x01), `PWR_FLAG_SB` (0x02) or `PWR_FLAG_PVDO` (0x04). -/
theorem IS_PWR_GET_FLAG_iff (v : Nat) :
    (IS_PWR_GET_FLAG v = true ↔
      v = PWR_FLAG_WU ∨ v = PWR_FLAG_SB ∨ v = PWR_FLAG_PVDO) ∧
    (IS_PWR_GET_FLAG v = true ↔ v = 0x01 ∨ v = 0x02 ∨ v = 0x04) := by
  constructor <;>
    simp [IS_PWR_GET_FLAG, PWR_FLAG_WU, PWR_FLAG_SB, PWR_FLAG_PVDO, or_assoc]

/-- The flag constants as values: each of the three flags has exactly one bit
set, any two distinct flags have bitwise AND 0, and the bitwise OR of any two
or of all three flags, handed to `IS_PWR_GET_FLAG` or `IS_PWR_CLEAR_FLAG` as a
value (a variable or a parenthesised expression), is rejected. -/
theorem PWR_FLAG_single_bits :
    (bitCount32 PWR_FLAG_WU = 1 ∧ bitCount32 PWR_FLAG_SB = 1 ∧
      bitCount32 PWR_FLAG_PVDO = 1) ∧
    (PWR_FLAG_WU = 1 <<< 0 ∧ PWR_FLAG_SB = 1 <<< 1 ∧ PWR_FLAG_PVDO = 1 <<< 2) ∧
    (PWR_FLAG_WU &&& PWR_FLAG_SB = 0 ∧ PWR_FLAG_WU &&& PWR_FLAG_PVDO = 0 ∧
      PWR_FLAG_SB &&& PWR_FLAG_PVDO = 0) ∧
    (IS_PWR_GET_FLAG (PWR_FLAG_WU ||| PWR_FLAG_SB) = false ∧
      IS_PWR_GET_FLAG (PWR_FLAG_WU ||| PWR_FLAG_PVDO) = false ∧
      IS_PWR_GET_FLAG (PWR_FLAG_SB ||| PWR_FLAG_PVDO) = false ∧
      IS_PWR_GET_FLAG (PWR_FLAG_WU ||| PWR_FLAG_SB ||| PWR_FLAG_PVDO) = false) ∧
    (IS_PWR_CLEAR_FLAG (PWR_FLAG_WU ||| PWR_FLAG_SB) = false ∧
      IS_PWR_CLEAR_FLAG (PWR_FLAG_WU ||| PWR_FLAG_PVDO) = false ∧
      IS_PWR_CLEAR_FLAG (PWR_FLAG_SB ||| PWR_FLAG_PVDO) = false ∧
      IS_PWR_CLEAR_FLAG (PWR_FLAG_WU ||| PWR_FLAG_SB ||| PWR_FLAG_PVDO) = false) := by
  decide

/-! ## The exported functions -/

/-- C7: for every 32-bit value outside the eight enumerated detection levels,
`PWR_PVDLevelConfig` fails with `InvalidConfiguration` and the level field of
the control register reads as before (indeed the whole device state is as
before). -/
theorem PWR_PVDLevelConfig_invalid (d : Device) (v : Nat) (hv : v < 2 ^ 32)
    (h : v ∉ DetectionLevels) :
    (PWR_PVDLevelConfig d v).1 = .error .InvalidConfiguration ∧
    readLevel (PWR_PVDLevelConfig d v).2 = readLevel d ∧
    (PWR_PVDLevelConfig d v).2 = d := by
  have hf : IS_PWR_PVD_LEVEL v = false := by
    rw [mem_DetectionLevels_iff] at h
    simpa using h
  simp only [PWR_PVDLevelConfig, Nat.mod_eq_of_lt hv, hf]
  simp

theorem PWR_PVDLevelConfig_invalid_witness :
    (0x10 < 2 ^ 32 ∧ 0x10 ∉ DetectionLevels) ∧
    (PWR_PVDLevelConfig ⟨0x1F0, 0x3, false, []⟩ 0x10).1
        = .error .InvalidConfiguration ∧
    readLevel (PWR_PVDLevelConfig ⟨0x1F0, 0x3, false, []⟩ 0x10).2
        = readLevel ⟨0x1F0, 0x3, false, []⟩ ∧
    (PWR_PVDLevelConfig ⟨0x1F0, 0x3, false, []⟩ 0x10).2
        = ⟨0x1F0, 0x3, false, []⟩ :=
  ⟨⟨by decide, by decide⟩,
    PWR_PVDLevelConfig_invalid ⟨0x1F0, 0x3, false, []⟩ 0x10 (by decide) (by decide)⟩

/-- C8: `PWR_EnterSTOPMode` fails with `InvalidConfiguration` whenever the
regulator argument is neither `PWR_Regulator_ON` nor `PWR_Regulator_LowPower`
or the entry argument is neither `PWR_STOPEntry_WFI` nor `PWR_STOPEntry_WFE`,
and then the control register is as before (indeed the whole device state is);
in particular so for an invalid regulator together with `PWR_STOPEntry_WFI`. -/
theorem PWR_EnterSTOPMode_invalid (d : Device) (reg entry : Nat)
    (hr : reg < 2 ^ 32) (he : entry < 2 ^ 8)
    (h : ¬ (reg = PWR_Regulator_ON ∨ reg = PWR_Regulator_LowPower) ∨
         ¬ (entry = PWR_STOPEntry_WFI ∨ entry = PWR_STOPEntry_WFE)) :
    (PWR_EnterSTOPMode d reg entry).1 = .error .InvalidConfiguration ∧
    (PWR_EnterSTOPMode d reg entry).2.CR = d.CR ∧
    (PWR_EnterSTOPMode d reg entry).2 = d := by
  have hf : (IS_PWR_REGULATOR reg && IS_PWR_STOP_ENTRY entry) = false := by
    rcases h with h | h
    · have : IS_PWR_REGULATOR reg = false := by
        simpa [IS_PWR_REGULATOR] using h
      simp [this]
    · have : IS_PWR_STOP_ENTRY entry = false := by
        simpa [IS_PWR_STOP_ENTRY] using h
      simp [this]
  simp only [PWR_EnterSTOPMode, Nat.mod_eq_of_lt hr, Nat.mod_eq_of_lt he, hf]
  simp

theorem PWR_EnterSTOPMode_invalid_witness :
    (0x02 < 2 ^ 32 ∧ PWR_STOPEntry_WFI < 2 ^ 8 ∧
      (¬ (0x02 = PWR_Regulator_ON ∨ 0x02 = PWR_Regulator_LowPower) ∨
       ¬ (PWR_STOPEntry_WFI = PWR_STOPEntry_WFI ∨
          PWR_STOPEntry_WFI = PWR_STOPEntry_WFE))) ∧
    (PWR_EnterSTOPMode ⟨0x1F0, 0x3, false, []⟩ 0x02 PWR_STOPEntry_WFI).1
        = .error .InvalidConfiguration ∧
    (PWR_EnterSTOPMode ⟨0x1F0, 0x3, false, []⟩ 0x02 PWR_STOPEntry_WFI).2.CR
        = 0x1F0 ∧
    (PWR_EnterSTOPMode ⟨0x1F0, 0x3, false, []⟩ 0x02 PWR_STOPEntry_WFI).2
        = ⟨0x1F0, 0x3, false, []⟩ :=
  ⟨⟨by decide, by decide, by decide⟩,
    PWR_EnterSTOPMode_invalid ⟨0x1F0, 0x3, false, []⟩ 0x02 PWR_STOPEntry_WFI
      (by decide) (by decide) (by decide)⟩

/-- C9: for every device state, `PWR_ClearFlag` called with `PWR_FLAG_PVDO`
fails with `NotClearable`, and both the control register and the status
register are the same after the call as before (indeed the whole device state
is). -/
theorem PWR_ClearFlag_PVDO (d : Device) :
    (PWR_ClearFlag d PWR_FLAG_PVDO).1 = .error .NotClearable ∧
    (PWR_ClearFlag d PWR_FLAG_PVDO).2.CR = d.CR ∧
    (PWR_ClearFlag d PWR_FLAG_PVDO).2.CSR = d.CSR ∧
    (PWR_ClearFlag d PWR_FLAG_PVDO).2 = d := by
  simp [PWR_ClearFlag, PWR_FLAG_PVDO]

/-- C10: for each of the eight detection levels and every prior device state
(so every prior content of the control register), `PWR_PVDLevelConfig`
succeeds, the level field then reads as the level that was set, and the
PVD-enable bit is the same as before the call (as is every other bit outside
the level field). -/
theorem PWR_PVDLevelConfig_roundtrip (d : Device) (lvl : Nat)
    (h : lvl ∈ DetectionLevels) :
    (PWR_PVDLevelConfig d lvl).1 = .ok () ∧
    readLevel (PWR_PVDLevelConfig d lvl).2 = lvl ∧
    (PWR_PVDLevelConfig d lvl).2.CR &&& CR_PVDE = d.CR &&& CR_PVDE ∧
    (PWR_PVDLevelConfig d lvl).2.CR &&& CR_PLS_Mask = d.CR &&& CR_PLS_Mask := by
  obtain ⟨hpls, hpvde, hout, hlt⟩ := mem_DetectionLevels_and_PLS h
  have ht : IS_PWR_PVD_LEVEL lvl = true := (mem_DetectionLevels_iff lvl).1 h
  simp only [PWR_PVDLevelConfig, Nat.mod_eq_of_lt hlt, ht, if_true, readLevel]
  exact ⟨trivial, write_field_read d.CR lvl hpls,
    write_field_PVDE d.CR lvl hpvde, write_field_others d.CR lvl hout⟩

theorem PWR_PVDLevelConfig_roundtrip_witness :
    PWR_PVDLevel_2V7 ∈ DetectionLevels ∧
    (PWR_PVDLevelConfig ⟨0x15F, 0x3, false, []⟩ PWR_PVDLevel_2V7).1 = .ok () ∧
    readLevel (PWR_PVDLevelConfig ⟨0x15F, 0x3, false, []⟩ PWR_PVDLevel_2V7).2
        = PWR_PVDLevel_2V7 ∧
    (PWR_PVDLevelConfig ⟨0x15F, 0x3, false, []⟩ PWR_PVDLevel_2V7).2.CR &&& CR_PVDE
        = 0x15F &&& CR_PVDE ∧
    (PWR_PVDLevelConfig ⟨0x15F, 0x3, false, []⟩ PWR_PVDLevel_2V7).2.CR
        &&& CR_PLS_Mask = 0x15F &&& CR_PLS_Mask :=
  ⟨by decide,
    PWR_PVDLevelConfig_roundtrip ⟨0x15F, 0x3, false, []⟩ PWR_PVDLevel_2V7 (by decide)⟩

/-- C11: for every prior device state (so every prior content of the control
register), `PWR_EnterSTOPMode` called with `PWR_Regulator_LowPower` and
`PWR_STOPEntry_WFE` succeeds, leaves the PDDS bit of the control register
cleared and the LPDS bit set, and the one suspend it issues is the event-wait
one, not the interrupt-wait one. -/
theorem PWR_EnterSTOPMode_LowPower_WFE (d : Device) :
    (PWR_EnterSTOPMode d PWR_Regulator_LowPower PWR_STOPEntry_WFE).1 = .ok () ∧
    (PWR_EnterSTOPMode d PWR_Regulator_LowPower PWR_STOPEntry_WFE).2.CR
        &&& CR_PDDS = 0 ∧
    (PWR_EnterSTOPMode d PWR_Regulator_LowPower PWR_STOPEntry_WFE).2.CR
        &&& CR_LPDS = CR_LPDS ∧
    (PWR_EnterSTOPMode d PWR_Regulator_LowPower PWR_STOPEntry_WFE).2.suspends
        = d.suspends ++ [Suspend.WFE] ∧
    (PWR_EnterSTOPMode d PWR_Regulator_LowPower PWR_STOPEntry_WFE).2.suspends
        ≠ d.suspends ++ [Suspend.WFI] := by
  have hr : PWR_Regulator_LowPower % 2 ^ 32 = 1 := by decide
  have he : PWR_STOPEntry_WFE % 2 ^ 8 = 2 := by decide
  have hv : (IS_PWR_REGULATOR 1 && IS_PWR_STOP_ENTRY 2) = true := by decide
  have hw : (2 == PWR_STOPEntry_WFI) = false := by decide
  have h1 : CR_DS_Mask &&& CR_PDDS = 0 := by decide
  have h2 : 1 &&& CR_PDDS = 0 := by decide
  have h3 : CR_DS_Mask &&& CR_LPDS = 0 := by decide
  have h4 : 1 &&& CR_LPDS = CR_LPDS := by decide
  simp only [PWR_EnterSTOPMode, hr, he, hv, hw, if_true]
  refine ⟨trivial, ?_, ?_, ?_, ?_⟩
  · rw [Nat.and_distrib_right, Nat.and_assoc, h1, h2, Nat.and_zero, Nat.or_zero]
  · rw [Nat.and_distrib_right, Nat.and_assoc, h3, h4, Nat.and_zero, Nat.zero_or]
  · simp
  · simp

/-! ## The encodings of the detection levels -/

/-- C12: the constant of the k-th voltage step (k = 0 for 2.2V up to k = 7 for
2.9V) is `k * 0x20`, that is `k` shifted left by 5; hence the eight encodings
are strictly increasing in voltage order and pairwise distinct. -/
theorem PWR_PVDLevel_evenly_spaced :
    (PWR_PVDLevel_2V2 = 0 * 0x20 ∧ PWR_PVDLevel_2V3 = 1 * 0x20 ∧
      PWR_PVDLevel_2V4 = 2 * 0x20 ∧ PWR_PVDLevel_2V5 = 3 * 0x20 ∧
      PWR_PVDLevel_2V6 = 4 * 0x20 ∧ PWR_PVDLevel_2V7 = 5 * 0x20 ∧
      PWR_PVDLevel_2V8 = 6 * 0x20 ∧ PWR_PVDLevel_2V9 = 7 * 0x20) ∧
    DetectionLevels = (List.range 8).map (fun k => k * 0x20) ∧
    DetectionLevels = (List.range 8).map (fun k => k <<< 5) ∧
    (PWR_PVDLevel_2V2 < PWR_PVDLevel_2V3 ∧ PWR_PVDLevel_2V3 < PWR_PVDLevel_2V4 ∧
      PWR_PVDLevel_2V4 < PWR_PVDLevel_2V5 ∧ PWR_PVDLevel_2V5 < PWR_PVDLevel_2V6 ∧
      PWR_PVDLevel_2V6 < PWR_PVDLevel_2V7 ∧ PWR_PVDLevel_2V7 < PWR_PVDLevel_2V8 ∧
      PWR_PVDLevel_2V8 < PWR_PVDLevel_2V9) ∧
    List.Pairwise (fun a b => a < b) DetectionLevels ∧
    List.Pairwise (fun a b => a ≠ b) DetectionLevels := by
  decide

/-- A 32-bit word with no bit set outside bits 5..7 is below 256. -/
theorem lt_256_of_and_mask_eq_zero (v : Nat) (hv : v < 2 ^ 32)
    (h : v &&& 0xFFFFFF1F = 0) : v < 256 := by
  have h32 : v &&& (2 ^ 32 - 1) = v := by
    rw [Nat.and_pow_two_sub_one_eq_mod, Nat.mod_eq_of_lt hv]
  have hsplit : (2 ^ 32 - 1 : Nat) = 0xFFFFFF1F ||| 0xE0 := by decide
  rw [hsplit, Nat.and_or_distrib_left, h, Nat.zero_or] at h32
  have hle : v &&& 0xE0 ≤ 0xE0 := Nat.and_le_right
  omega

set_option maxRecDepth 100000 in
/-- Below 256 the level check and the mask test agree. -/
theorem IS_PWR_PVD_LEVEL_iff_mask_of_lt_256 :
    ∀ w < 256, (IS_PWR_PVD_LEVEL w = true ↔ w &&& 0xFFFFFF1F = 0) := by
  decide

/-- C13: for every 32-bit unsigned value `v`, `IS_PWR_PVD_LEVEL v` holds if and
only if `v &&& 0xFFFFFF1F = 0`, that is `v` has no bit set outside the mask
0x000000E0 (bits 5..7); hence OR-ing a valid level into a register whose bits
5..7 are cleared changes no bit outside that field (and the field then holds
the level). -/
theorem IS_PWR_PVD_LEVEL_iff_mask (v cr : Nat) (hv : v < 2 ^ 32) :
    (IS_PWR_PVD_LEVEL v = true ↔ v &&& 0xFFFFFF1F = 0) ∧
    (IS_PWR_PVD_LEVEL v = true ↔ v &&& 0x000000E0 = v) ∧
    (IS_PWR_PVD_LEVEL v = true → cr &&& 0x000000E0 = 0 →
      (cr ||| v) &&& 0xFFFFFF1F = cr &&& 0xFFFFFF1F ∧
      (cr ||| v) &&& 0x000000E0 = v ∧
      ∀ i, i < 5 ∨ 7 < i → (cr ||| v).testBit i = cr.testBit i) := by
  have hiff : IS_PWR_PVD_LEVEL v = true ↔ v &&& 0xFFFFFF1F = 0 := by
    constructor
    · intro h
      have hm := (mem_DetectionLevels_and_PLS ((mem_DetectionLevels_iff v).2 h)).2.2.1
      exact hm
    · intro h
      exact (IS_PWR_PVD_LEVEL_iff_mask_of_lt_256 v
        (lt_256_of_and_mask_eq_zero v hv h)).2 h
  have hin : IS_PWR_PVD_LEVEL v = true → v &&& 0x000000E0 = v := fun h =>
    (mem_DetectionLevels_and_PLS ((mem_DetectionLevels_iff v).2 h)).1
  refine ⟨hiff, ⟨hin, ?_⟩, ?_⟩
  · intro h
    apply hiff.2
    rw [← h, Nat.and_assoc]
    have : (0x000000E0 : Nat) &&& 0xFFFFFF1F = 0 := by decide
    rw [this, Nat.and_zero]
  · intro h hcr
    have hz := hiff.1 h
    refine ⟨?_, ?_, ?_⟩
    · rw [Nat.and_distrib_right, hz, Nat.or_zero]
    · rw [Nat.and_distrib_right, hcr, hin h, Nat.zero_or]
    · intro i hi
      have hb : v.testBit i = false := by
        have hzi : (v &&& 0xFFFFFF1F).testBit i = false := by
          rw [hz]; exact Nat.zero_testBit i
        rw [Nat.testBit_and] at hzi
        rcases hi with hi | hi
        · have : (0xFFFFFF1F : Nat).testBit i = true := by
            interval_cases i <;> decide
          simpa [this] using hzi
        · by_cases h32 : i < 32
          · have : (0xFFFFFF1F : Nat).testBit i = true := by
              interval_cases i <;> decide
            simpa [this] using hzi
          · apply Nat.testBit_lt_two_pow
            calc v < 2 ^ 32 := hv
              _ ≤ 2 ^ i := Nat.pow_le_pow_right (by decide) (by omega)
      rw [Nat.testBit_or, hb, Bool.or_false]

theorem IS_PWR_PVD_LEVEL_iff_mask_witness :
    (0xA0 : Nat) < 2 ^ 32 ∧
    ((IS_PWR_PVD_LEVEL 0xA0 = true ↔ 0xA0 &&& 0xFFFFFF1F = 0) ∧
     (IS_PWR_PVD_LEVEL 0xA0 = true ↔ 0xA0 &&& 0x000000E0 = 0xA0) ∧
     (IS_PWR_PVD_LEVEL 0xA0 = true → 0x11F &&& 0x000000E0 = 0 →
       (0x11F ||| 0xA0) &&& 0xFFFFFF1F = 0x11F &&& 0xFFFFFF1F ∧
       (0x11F ||| 0xA0) &&& 0x000000E0 = 0xA0 ∧
       ∀ i, i < 5 ∨ 7 < i → (0x11F ||| 0xA0).testBit i = (0x11F).testBit i)) :=
  ⟨by decide, IS_PWR_PVD_LEVEL_iff_mask 0xA0 0x11F (by decide)⟩

/-! ## Relations between the parameter checks -/

/-- C14: for every unsigned value `v`, `IS_PWR_CLEAR_FLAG v` implies
`IS_PWR_GET_FLAG v`, and `v` passes `IS_PWR_GET_FLAG` but not
`IS_PWR_CLEAR_FLAG` if and only if `v` is `PWR_FLAG_PVDO` (0x04). -/
theorem IS_PWR_CLEAR_FLAG_imp_GET_FLAG (v : Nat) :
    (IS_PWR_CLEAR_FLAG v = true → IS_PWR_GET_FLAG v = true) ∧
    ((IS_PWR_GET_FLAG v = true ∧ ¬ IS_PWR_CLEAR_FLAG v = true) ↔
      v = PWR_FLAG_PVDO) ∧
    PWR_FLAG_PVDO = 0x04 := by
  refine ⟨?_, ?_, rfl⟩
  · simp only [IS_PWR_CLEAR_FLAG, IS_PWR_GET_FLAG, Bool.or_eq_true]
    intro h
    exact Or.inl h
  · simp only [IS_PWR_CLEAR_FLAG, IS_PWR_GET_FLAG, PWR_FLAG_WU, PWR_FLAG_SB,
      PWR_FLAG_PVDO, Bool.or_eq_true, beq_iff_eq]
    omega

/-- C15: the stop-entry parameter is 8 bits wide, so the check sees the
argument modulo 256: for every unsigned value `n` (so every 32-bit one),
`IS_PWR_STOP_ENTRY (n % 256)` holds if and only if `n % 256` is 1 or 2; the
32-bit value `n = 0x101` is outside the enumerated set but narrows to
`PWR_STOPEntry_WFI`, which the check accepts. -/
theorem IS_PWR_STOP_ENTRY_narrowed (n : Nat) :
    (IS_PWR_STOP_ENTRY (n % 2 ^ 8) = true ↔ n % 256 = 1 ∨ n % 256 = 2) ∧
    ((0x101 : Nat) < 2 ^ 32 ∧
      ¬ (0x101 = PWR_STOPEntry_WFI ∨ 0x101 = PWR_STOPEntry_WFE) ∧
      IS_PWR_STOP_ENTRY 0x101 = false ∧
      0x101 % 2 ^ 8 = PWR_STOPEntry_WFI ∧
      IS_PWR_STOP_ENTRY (0x101 % 2 ^ 8) = true) := by
  refine ⟨?_, by decide⟩
  simp [IS_PWR_STOP_ENTRY, PWR_STOPEntry_WFI, PWR_STOPEntry_WFE]

/-! ## The flag checks at an OR of flags written in the argument -/

/-- C6: the flags are single bits with pairwise AND 0, but the checks do not
reject an OR of flags written as the macro argument: the expansions of
`IS_PWR_GET_FLAG` and `IS_PWR_CLEAR_FLAG` at `PWR_FLAG_WU | PWR_FLAG_SB`,
`PWR_FLAG_WU | PWR_FLAG_PVDO`, `PWR_FLAG_SB | PWR_FLAG_PVDO` and
`PWR_FLAG_WU | PWR_FLAG_SB | PWR_FLAG_PVDO` all evaluate to true, while the
same OR handed over as a value is rejected. -/
theorem IS_PWR_FLAG_checks_accept_or :
    (bitCount32 PWR_FLAG_WU = 1 ∧ bitCount32 PWR_FLAG_SB = 1 ∧
      bitCount32 PWR_FLAG_PVDO = 1) ∧
    (PWR_FLAG_WU &&& PWR_FLAG_SB = 0 ∧ PWR_FLAG_WU &&& PWR_FLAG_PVDO = 0 ∧
      PWR_FLAG_SB &&& PWR_FLAG_PVDO = 0) ∧
    (IS_PWR_GET_FLAG_or PWR_FLAG_WU PWR_FLAG_SB = true ∧
      IS_PWR_GET_FLAG_or PWR_FLAG_WU PWR_FLAG_PVDO = true ∧
      IS_PWR_GET_FLAG_or PWR_FLAG_SB PWR_FLAG_PVDO = true ∧
      IS_PWR_GET_FLAG_or (PWR_FLAG_WU ||| PWR_FLAG_SB) PWR_FLAG_PVDO = true) ∧
    (IS_PWR_CLEAR_FLAG_or PWR_FLAG_WU PWR_FLAG_SB = true ∧
      IS_PWR_CLEAR_FLAG_or PWR_FLAG_WU PWR_FLAG_PVDO = true ∧
      IS_PWR_CLEAR_FLAG_or PWR_FLAG_SB PWR_FLAG_PVDO = true ∧
      IS_PWR_CLEAR_FLAG_or (PWR_FLAG_WU ||| PWR_FLAG_SB) PWR_FLAG_PVDO = true) ∧
    (IS_PWR_GET_FLAG (PWR_FLAG_WU ||| PWR_FLAG_SB) = false ∧
      IS_PWR_CLEAR_FLAG (PWR_FLAG_SB ||| PWR_FLAG_PVDO) = false) := by
  decide

end Pwr
